import Mathlib

/-!
Verification of the tk-motionbuilder publish hooks.

Shallow embedding of the three hook files under
`src/hooks/tk-multi-publish2/basic/`:

* `publish_session.py` — `MotionBuilderSessionPublishPlugin` (validate /
  publish / finalize and `_get_templates_from_context`);
* `render_upload_take_version.py` — `RenderUploadTakeVersion` (accept /
  validate / publish and `_cams_settings_requires_multi_edit_mode`);
* `collector.py` — `MotionBuilderSessionCollector` (camera / take gathering).

External collaborators (the Shotgun toolkit engine, template registry, the
tracking database, the file system and the MotionBuilder application) are
parameters of an `Env` record.  Code of the base publish plugin that is not
part of this repository (the version resolver `_get_next_version_info`, the
finalize helper `_save_to_next_version`) is modelled from the spec and marked
as such in its doc comment.
-/

namespace TkMobu

/-- Log severity of a `self.logger.<level>` call. -/
inductive LogLevel
  | debug
  | info
  | warning
  | error
deriving DecidableEq, Repr

/-- The `extra` payload attached to a log call: nothing, the generic
"Save As..." action produced by `_get_save_as_action`, or the
"Save to v<n>" action of the version-collision error whose callback saves
the session to the first free version path. -/
inductive LogExtra
  | noExtra
  | saveAsAction
  | saveToVersion (path : String) (version : Nat)
deriving DecidableEq, Repr

/-- One emitted log record. -/
structure LogEvent where
  level : LogLevel
  msg : String
  extra : LogExtra
deriving DecidableEq, Repr

/-- A Python exception escaping a hook method. -/
inductive PyErr
  | exception (msg : String)
  | keyError (key : String)
  | typeError (msg : String)
deriving DecidableEq, Repr

/-- Outcome of `MotionBuilderSessionPublishPlugin.validate`: an uncaught
exception, `return False`, or delegation to the base-class validation
(`return super(...).validate(settings, item)`, the code of which is outside
this repository). -/
inductive PyResult
  | error (e : PyErr)
  | returnedFalse
  | baseDelegated
deriving DecidableEq, Repr

/-- A toolkit template object: a name and the externally owned
`Template.validate(path)` pattern check. -/
structure Template where
  name : String
  validate : String → Bool

/-- The context entity reference (`item.context.entity`), a dict with at
least `type` and `id`. -/
structure Entity where
  etype : String
  eid : Nat

/-- The entity dict returned by `shotgun.find_one(entity_type, ...,
fields=["sg_session", "sg_subsession"])`: its `type` field (echoed by the
tracking system) and the truthiness of its `sg_subsession` field. -/
structure SgEntity where
  rtype : String
  sg_subsession : Bool

/-- `item.context`: the entity reference plus the truthiness of
`item.context.task`. -/
structure Context where
  entity : Entity
  hasTask : Bool

/-- The item property dict entries read or written by the session publish
plugin.  An absent key and a key stored with value `None` are both `none`
(`properties.get` returns `None` for both and only truthiness is tested). -/
structure ItemProperties where
  work_template : Option Template
  publish_template : Option Template
  path : Option String
  project_root : Option String

/-- A publish item: its context and its property dict. -/
structure Item where
  context : Context
  properties : ItemProperties

/-- The plugin settings consumed by the session publish plugin:
the boolean value of "Force Template" and the (possibly `None`) value of
the "Publish Template" setting. -/
structure Settings where
  forceTemplate : Bool
  publishTemplateName : Option String

/-- External collaborators of the hooks: the current session path
(`mb_app.FBXFileName`), path normalization (`sgtk.util.ShotgunPath.normalize`),
the file system (`os.path.exists`), the template registry
(`engine.get_template_by_name`) and the tracking system (`shotgun.find_one`
keyed by entity type and id). -/
structure Env where
  sessionPath : String
  normalize : String → String
  fileExists : String → Bool
  getTemplateByName : String → Option Template
  findOne : String → Nat → Option SgEntity

/-- `engine.get_template_by_name` applied to a setting value that may be
`None` (looking up `None` in the template registry yields `None`). -/
def getTemplateOpt (env : Env) : Option String → Option Template
  | none => none
  | some n => env.getTemplateByName n

/-- The work/publish template-name pair of one `CONTEXT_TEMPLATE` entry. -/
structure TemplateNames where
  work_template : String
  publish_template : String
deriving DecidableEq, Repr

/-- The module-level `CONTEXT_TEMPLATE` table of `publish_session.py`. -/
def CONTEXT_TEMPLATE : List (String × TemplateNames) :=
  [ ("routine", ⟨"mobu_routine_work", "mobu_routine_publish"⟩),
    ("routine_subsession",
      ⟨"mobu_routine_subsession_work", "mobu_routine_subsession_publish"⟩),
    ("mocaptake", ⟨"mobu_mocaptake_work", "mobu_mocaptake_publish"⟩),
    ("mocaptake_subsession",
      ⟨"mobu_mocaptake_subsession_work", "mobu_mocaptake_subsession_publish"⟩),
    ("asset", ⟨"mobu_asset_work", "mobu_asset_publish"⟩) ]

/-- Dictionary lookup in `CONTEXT_TEMPLATE` (`CONTEXT_TEMPLATE[k]`,
`k in CONTEXT_TEMPLATE`). -/
def contextTemplateLookup (k : String) : Option TemplateNames :=
  (CONTEXT_TEMPLATE.find? (fun p => p.1 == k)).map (·.2)

/-- Python `str.lower()` on the ASCII entity-type names this code sees. -/
def pyLower (s : String) : String := ⟨s.toList.map Char.toLower⟩

/-! ### Version resolver (modelled from the spec) -/

/-- A version-token separator: `.`, `_` or `-`. -/
def isSep (c : Char) : Bool := c == '.' || c == '_' || c == '-'

/-- Numeric value of a run of decimal digit characters. -/
def digitsToNat (ds : List Char) : Nat :=
  ds.foldl (fun a c => a * 10 + (c.toNat - 48)) 0

/-- Left-pad a digit run with `'0'` to width `w`. -/
def padDigits (w : Nat) (ds : List Char) : List Char :=
  List.replicate (w - ds.length) '0' ++ ds

/-- Find the last occurrence of a version token — a separator (`.`, `_`,
`-`) followed by `v` and one or more digits — splitting the character list
into the part before the separator, the separator, the digit run and the
part after the digits. -/
def findVersionToken : List Char → Option (List Char × Char × List Char × List Char)
  | [] => none
  | c :: rest =>
    match findVersionToken rest with
    | some (p, sep, ds, suf) => some (c :: p, sep, ds, suf)
    | none =>
      if isSep c then
        match rest with
        | 'v' :: rest2 =>
          let ds := rest2.takeWhile Char.isDigit
          if ds.isEmpty then none
          else some ([], c, ds, rest2.dropWhile Char.isDigit)
        | _ => none
      else none

/-- Modelled from the spec: the base publish hook's `_get_next_version_info`
(Version Resolver, spec section 4.2) is not under `src/`.  It recognizes a
version token `v` followed by digits and preceded by `.`, `_` or `-`
(any padding width), and produces the path with the numeral incremented by
one, preserving padding width and separator, together with the new version
number; with no token it signals `NoVersionToken` by returning `none`. -/
def next_version_info (path : String) : Option (String × Nat) :=
  match findVersionToken path.toList with
  | none => none
  | some (p, sep, ds, suf) =>
    let n := digitsToNat ds + 1
    some (⟨p ++ sep :: 'v' :: (padDigits ds.length (Nat.toDigits 10 n) ++ suf)⟩, n)

/-- Modelled from the spec: safety bound for the first-unused-version search
(the source's `while os.path.exists(next_version_path)` loop has no bound;
the spec, section 4.2, prescribes a bound of 10,000 iterations and a
`VersionSearchExhausted` signal beyond it). -/
def versionSearchBound : Nat := 10000

/-- The `while os.path.exists(next_version_path)` loop of `validate`
(lines 318-320 of `publish_session.py`): keep advancing the version until a
path that does not exist is found.  Running out of fuel models the spec's
`VersionSearchExhausted`; a path whose successor has no version token would
make the source call `os.path.exists(None)`, a `TypeError`. -/
def collisionScan (env : Env) : Nat → String → Nat → Except PyErr (String × Nat)
  | 0, _, _ => .error (.exception "VersionSearchExhausted")
  | Nat.succ fuel, p, v =>
    if env.fileExists p then
      match next_version_info p with
      | none => .error (.typeError "coercing to Unicode: need string, NoneType found")
      | some (p2, v2) => collisionScan env fuel p2 v2
    else .ok (p, v)

/-- `os.path.dirname` for the paths this code sees: everything before the
last `/`, or the empty string when there is no separator. -/
def dirname (p : String) : String :=
  let cs := p.toList
  if cs.contains '/' then ⟨((cs.reverse.dropWhile (fun c => c != '/')).tail).reverse⟩
  else ""

/-! ### Log messages of `publish_session.py` -/

def unsavedSessionMsg : String := "The Motion Builder session has not been saved."

def taskNeededMsg : String := "A task need to be selected before publishing"

def noProjectMsg : String := "Your session is not part of a Motion Builder project."

def noWorkTemplateDebugMsg : String := "No work template configured."

def noWorkTemplateErrorMsg : String :=
  "No work template configured. Validation failed since Force Template settings is on"

def templateMismatchMsg : String :=
  "The current session does not match the configured work file template."

def workMatchesDebugMsg : String :=
  "Work template configured and matches session file."

def collisionMsg : String := "The next version of this file already exists on disk."

def noPublishTemplateErrorMsg : String :=
  "No publish template configured. Validation failed since Force Template settings is on"

def determiningTemplateMsg : String := "Determining template automatically"

/-- The debug message of the unsupported-context branch of
`_get_templates_from_context` (the Python `%`-interpolation of the entity
dict repr is abstracted to the entity type). -/
def unsupportedContextMsg (etype : String) : String :=
  "Could not determine template for entity of type " ++ etype ++
    ". Context is currently not supported"

namespace MotionBuilderSessionPublishPlugin

/-- `MotionBuilderSessionPublishPlugin._get_templates_from_context`
(`publish_session.py` lines 402-449).  Looks the (lowercased) context entity
type up in `CONTEXT_TEMPLATE`; for `Routine`/`MocapTake` entities fetches the
entity from the tracking system and, when its `sg_subsession` field is
truthy, re-selects with `CONTEXT_TEMPLATE[ctx_entity["type"] + "_subsession"]`
(the un-lowercased type, as written on line 442); finally fills each of the
`work_template`/`publish_template` properties that is not already set.
Returns the updated properties and the emitted logs, or the uncaught Python
exception: a `KeyError` when the re-selection key is absent, and a
`TypeError` when the entity lookup returns `None` (line 435 subscripts the
`None` result while formatting its debug message). -/
def get_templates_from_context (env : Env) (item : Item) :
    Except PyErr (ItemProperties × List LogEvent) :=
  let logs0 : List LogEvent := [⟨.info, determiningTemplateMsg, .noExtra⟩]
  let entityType := item.context.entity.etype
  let isRoutineOrTake : Bool := entityType == "Routine" || entityType == "MocapTake"
  match contextTemplateLookup (pyLower entityType) with
  | none =>
    .ok (item.properties,
      logs0 ++ [⟨.debug, unsupportedContextMsg entityType, .noExtra⟩])
  | some templateInfo0 =>
    match env.findOne entityType item.context.entity.eid with
    | none => .error (.typeError "NoneType object is unsubscriptable")
    | some fetched =>
      let templateInfo : Option TemplateNames :=
        if isRoutineOrTake && fetched.sg_subsession then
          contextTemplateLookup (fetched.rtype ++ "_subsession")
        else some templateInfo0
      match templateInfo with
      | none => .error (.keyError (fetched.rtype ++ "_subsession"))
      | some ti =>
        let props1 :=
          if item.properties.work_template.isNone then
            { item.properties with
              work_template := env.getTemplateByName ti.work_template }
          else item.properties
        let props2 :=
          if props1.publish_template.isNone then
            { props1 with
              publish_template := env.getTemplateByName ti.publish_template }
          else props1
        .ok (props2, logs0)

/-- `MotionBuilderSessionPublishPlugin.validate`
(`publish_session.py` lines 226-360).  Returns the outcome, the item
properties as left by the method, and the emitted logs in order. -/
def validate (env : Env) (settings : Settings) (item : Item) :
    PyResult × ItemProperties × List LogEvent :=
  let path := env.sessionPath
  let force := settings.forceTemplate
  if path == "" then
    (.error (.exception unsavedSessionMsg), item.properties,
      [⟨.error, unsavedSessionMsg, .saveAsAction⟩])
  else if force && !item.context.hasTask then
    (.returnedFalse, item.properties, [⟨.error, taskNeededMsg, .noExtra⟩])
  else
    let projectRoot := dirname path
    let props0 := { item.properties with project_root := some projectRoot }
    let logs0 : List LogEvent :=
      if projectRoot == "" then [⟨.info, noProjectMsg, .saveAsAction⟩] else []
    let npath := env.normalize path
    -- lines 283-294: work template resolution
    let step1 : Except (PyResult × ItemProperties × List LogEvent)
        (ItemProperties × List LogEvent) :=
      match props0.work_template with
      | some _ => .ok (props0, logs0)
      | none =>
        if force then
          match get_templates_from_context env ⟨item.context, props0⟩ with
          | .error e => .error (.error e, props0, logs0)
          | .ok (props1, glogs) =>
            match props1.work_template with
            | none =>
              .error (.returnedFalse, props1,
                logs0 ++ glogs ++ [⟨.error, noWorkTemplateErrorMsg, .noExtra⟩])
            | some _ => .ok (props1, logs0 ++ glogs)
        else .ok (props0, logs0 ++ [⟨.debug, noWorkTemplateDebugMsg, .noExtra⟩])
    match step1 with
    | .error r => r
    | .ok (props1, logs1) =>
      -- lines 296-306: work template conformance check
      let step2 : Except (PyResult × ItemProperties × List LogEvent)
          (List LogEvent) :=
        match props1.work_template with
        | none => .ok logs1
        | some wt =>
          if wt.validate npath then
            .ok (logs1 ++ [⟨.debug, workMatchesDebugMsg, .noExtra⟩])
          else if !force then
            .ok (logs1 ++ [⟨.warning, templateMismatchMsg, .saveAsAction⟩])
          else
            .error (.returnedFalse, props1,
              logs1 ++ [⟨.error, templateMismatchMsg, .saveAsAction⟩])
      match step2 with
      | .error r => r
      | .ok logs2 =>
        -- lines 313-334: version-collision probe
        let step3 : Except (PyResult × ItemProperties × List LogEvent)
            (List LogEvent) :=
          match next_version_info npath with
          | none => .ok logs2
          | some (nvp, v) =>
            if env.fileExists nvp then
              match collisionScan env versionSearchBound nvp v with
              | .error e => .error (.error e, props1, logs2)
              | .ok (fp, fv) =>
                .error (.error (.exception collisionMsg), props1,
                  logs2 ++ [⟨.error, collisionMsg, .saveToVersion fp fv⟩])
            else .ok logs2
        match step3 with
        | .error r => r
        | .ok logs3 =>
          -- lines 338-360: publish template resolution, then base validation
          match getTemplateOpt env settings.publishTemplateName with
          | some pt =>
            (.baseDelegated,
              { props1 with publish_template := some pt, path := some npath },
              logs3)
          | none =>
            if force then
              match get_templates_from_context env ⟨item.context, props1⟩ with
              | .error e => (.error e, props1, logs3)
              | .ok (props2, glogs2) =>
                match props2.publish_template with
                | none =>
                  (.returnedFalse, props2,
                    logs3 ++ glogs2 ++
                      [⟨.error, noPublishTemplateErrorMsg, .noExtra⟩])
                | some _ =>
                  (.baseDelegated, { props2 with path := some npath },
                    logs3 ++ glogs2)
            else (.baseDelegated, { props1 with path := some npath }, logs3)

/-- `MotionBuilderSessionPublishPlugin.publish`
(`publish_session.py` lines 362-383): normalizes the current session path,
saves the session there (`_save_session`), and records it on the item.
Returns the path handed to `_save_session` and the updated properties (the
base-class publish registration is external). -/
def publish (env : Env) (item : Item) : String × ItemProperties :=
  let path := env.normalize env.sessionPath
  (path, { item.properties with path := some path })

/-- Modelled from the spec: the base hook `_save_to_next_version` used by
`finalize` (`publish_session.py` line 400) is not under `src/`.  Per spec
sections 4.2 and 4.4 it advances `item.properties["path"]` to the next
version path and saves the session there; with no version token it is a
no-op (`NoVersionToken` is non-fatal).  Returns the path saved to. -/
def save_to_next_version (path : String) : Option String :=
  (next_version_info path).map Prod.fst

/-- `MotionBuilderSessionPublishPlugin.finalize`
(`publish_session.py` lines 385-400): bumps `item.properties["path"]` to the
next version.  Returns the path the session is saved to (`none` when the
path property is unset or holds no version token). -/
def finalize (item : Item) : Option String :=
  match item.properties.path with
  | none => none
  | some p => save_to_next_version p

end MotionBuilderSessionPublishPlugin

/-! ### `render_upload_take_version.py` -/

/-- Python dict lookup on a dict modelled as an association list (keys are
unique; the first binding wins).  `isSome` of the result is the `in` test,
`getD` mirrors subscripting where presence is already established. -/
def dictLookup (s : List (String × Nat)) (k : String) : Option Nat :=
  (s.find? (fun p => p.1 == k)).map (·.2)

namespace RenderUploadTakeVersion

/-- Python `re.match('^[a-zA-Z0-9_]*$', s)` truthiness: the whole string is
made of ASCII letters, digits and underscores — or all of it except a single
trailing newline, before which `$` also matches. -/
def isWordChar (c : Char) : Bool := c.isAlpha || c.isDigit || c == '_'

/-- See `isWordChar`: the `re.match` test used by `validate` on take and
camera names. -/
def identRegexMatch (s : String) : Bool :=
  s.toList.all isWordChar ||
    (match s.toList.getLast? with
     | some c => c == '\n' && (s.toList.dropLast.all isWordChar)
     | none => false)

/-- `RenderUploadTakeVersion.validate`
(`render_upload_take_version.py` lines 416-469).  `cams` is the value of the
"cams" setting: a dict of camera name to checkbox state (an int; truthy
means selected), modelled as an association list.  Returns the boolean the
method returns: the take name must match the identifier pattern, at least
one camera must be selected, and no selected camera may have a
non-identifier name. -/
def validate (cams : List (String × Nat)) (takeName : String) : Bool :=
  if !identRegexMatch takeName then false
  else
    let cam_selected := cams.any (fun p => p.2 != 0)
    let bad_cam_name := cams.any (fun p => p.2 != 0 && !identRegexMatch p.1)
    if !cam_selected then false
    else if bad_cam_name then false
    else true

/-- A render job as handed to `sstk.jobs.export_render_mobu.create_job`. -/
structure RenderJob where
  publishId : Nat
  takes : String
  cameras : String
  renderLocal : Bool
deriving DecidableEq, Repr

/-- The `cam_list_str` accumulation of `RenderUploadTakeVersion.publish`
(lines 494-500): the `:`-joined names of the selected cameras, in dict
iteration order. -/
def cam_list_str (cams : List (String × Nat)) : String :=
  cams.foldl
    (fun acc p =>
      if p.2 != 0 then (if acc == "" then p.1 else acc ++ ":" ++ p.1) else acc)
    ""

def missingPublishDataMsg : String :=
  "Could not generate render without publishing the file first. Please, ensure to check" ++
    "the publish plugin before publishing for video."

/-- `RenderUploadTakeVersion.publish`
(`render_upload_take_version.py` lines 471-510).  `publishData` is the id of
`item.parent.properties["sg_publish_data"]` (`none` when the record is
absent or falsy).  With no publish record it raises before touching the
renderer; otherwise it submits one render job when at least one camera is
selected (`render_local=True`), and no job at all otherwise. -/
def publish (publishData : Option Nat) (cams : List (String × Nat))
    (takeName : String) : Except String (Option RenderJob) :=
  match publishData with
  | none => .error missingPublishDataMsg
  | some pid =>
    let s := cam_list_str cams
    if s == "" then .ok none
    else .ok (some ⟨pid, takeName, s, true⟩)

/-- `RenderUploadTakeVersion.accept`
(`render_upload_take_version.py` lines 384-414).  The argument is
`item.properties.get("cam_list", None)`; the item is accepted exactly when
that value is truthy: present and a non-empty list. -/
def accept {α : Type} (camList : Option (List α)) : Bool :=
  match camList with
  | none => false
  | some l => !l.isEmpty

/-- `RenderUploadTakeVersion._cams_settings_requires_multi_edit_mode`
(`render_upload_take_version.py` lines 263-295).  A task's settings are
modelled by their "cams" dict, an association list of camera name to
checkbox-state int. -/
def cams_settings_requires_multi_edit_mode
    (tasks_settings : List (List (String × Nat))) (cam_name : String) : Bool :=
  let cam_exists_setting :=
    tasks_settings.filter (fun s => (dictLookup s cam_name).isSome)
  if cam_exists_setting.isEmpty then false
  else if tasks_settings.length != cam_exists_setting.length then
    cam_exists_setting.any (fun s => (dictLookup s cam_name).getD 0 != 0)
  else
    match tasks_settings with
    | [] => false
    | t0 :: _ =>
      !(tasks_settings.all (fun t => dictLookup t0 cam_name == dictLookup t cam_name))

end RenderUploadTakeVersion

/-! ### `collector.py` -/

/-- A MotionBuilder camera as seen by the collector: its `Name` and its
`SystemCamera` flag. -/
structure Camera where
  name : String
  systemCamera : Bool
deriving DecidableEq, Repr

namespace MotionBuilderSessionCollector

/-- One iteration of the camera-gathering loop of
`collect_current_motion_builder_session` (`collector.py` lines 126-132):
append a non-system camera to `user_cams`, remember a system camera named
`Producer Perspective` as `persp_cam`, skip other system cameras. -/
def gatherStep (acc : List Camera × Option Camera) (cam : Camera) :
    List Camera × Option Camera :=
  if !cam.systemCamera then (acc.1 ++ [cam], acc.2)
  else if cam.name == "Producer Perspective" then (acc.1, some cam)
  else acc

/-- The camera-gathering loop of `collect_current_motion_builder_session`
(`collector.py` lines 124-132): folds `gatherStep` over `mb_scene.Cameras`
in order, starting from no user cameras and no perspective camera. -/
def gatherCams (cameras : List Camera) : List Camera × Option Camera :=
  cameras.foldl gatherStep ([], none)

/-- The last system camera named `Producer Perspective` in the scene list
(the loop overwrites `persp_cam`, so the last one wins). -/
def lastProducerPerspective (cameras : List Camera) : Option Camera :=
  cameras.reverse.find?
    (fun c => c.systemCamera && c.name == "Producer Perspective")

/-- The `cam_list` property stored on every take item
(`collector.py` line 153): `user_cams if user_cams else [persp_cam]`.
User cameras are wrapped in `some`; the fallback single element is
`persp_cam`, which is `none` when the scene has no `Producer Perspective`
system camera. -/
def take_cam_list (cameras : List Camera) : List (Option Camera) :=
  let g := gatherCams cameras
  if !g.1.isEmpty then g.1.map some else [g.2]

end MotionBuilderSessionCollector

/-! ### Concrete fixtures for the end-to-end scenarios -/

/-- Scenario B/C item: a fresh session item with no templates and no stored
path, in a `Shot` context without a task. -/
def scenItem : Item :=
  { context := ⟨⟨"Shot", 1⟩, false⟩, properties := ⟨none, none, none, none⟩ }

/-- Scenario B/C settings: Force Template off, no Publish Template. -/
def scenSettings : Settings := ⟨false, none⟩

/-- Scenario B environment: session saved as `shot010.v001.fbx`, nothing
else on disk, no templates resolvable, normalization the identity. -/
def scenEnvB : Env :=
  { sessionPath := "shot010.v001.fbx", normalize := id,
    fileExists := fun _ => false, getTemplateByName := fun _ => none,
    findOne := fun _ _ => none }

/-- Scenario C environment: as scenario B, but `shot010.v002.fbx` already
exists on disk (and `shot010.v003.fbx` does not). -/
def scenEnvC : Env :=
  { scenEnvB with fileExists := fun p => p == "shot010.v002.fbx" }

/-- An item in a `Routine` context (entity id 7) with no templates set. -/
def routineItem : Item :=
  { context := ⟨⟨"Routine", 7⟩, true⟩, properties := ⟨none, none, none, none⟩ }

/-- Environment whose tracking system knows `Routine` entity 7 with a truthy
`sg_subsession` flag, and whose registry resolves every template name. -/
def routineSubEnv : Env :=
  { sessionPath := "x.v001.fbx", normalize := id, fileExists := fun _ => false,
    getTemplateByName := fun n => some ⟨n, fun _ => true⟩,
    findOne := fun t i =>
      if t == "Routine" && i == 7 then some ⟨"Routine", true⟩ else none }

/-- As `routineSubEnv` but with a falsy `sg_subsession` flag. -/
def routinePlainEnv : Env :=
  { routineSubEnv with
    findOne := fun t i =>
      if t == "Routine" && i == 7 then some ⟨"Routine", false⟩ else none }

/-- An item that already carries an explicitly stored publish template named
`old_tpl`. -/
def presetItem : Item :=
  { context := ⟨⟨"Shot", 1⟩, false⟩,
    properties := ⟨none, some ⟨"old_tpl", fun _ => false⟩, none, none⟩ }

/-- Settings whose Publish Template setting names `new_tpl`
(Force Template off). -/
def presetSettings : Settings := ⟨false, some "new_tpl"⟩

/-- Environment resolving `new_tpl`, with a versioned saved session and an
empty disk. -/
def presetEnv : Env :=
  { sessionPath := "p.v001.fbx", normalize := id, fileExists := fun _ => false,
    getTemplateByName := fun n =>
      if n == "new_tpl" then some ⟨"new_tpl", fun _ => true⟩ else none,
    findOne := fun _ _ => none }

/-! ## Theorems -/

open MotionBuilderSessionPublishPlugin

/-- C3: for every session whose path is empty, `validate` raises the
unsaved-session error, emits exactly that one error log, and reaches no
later validation step — the item properties are returned untouched. -/
theorem validate_empty_path_raises (env : Env) (settings : Settings)
    (item : Item) (h : env.sessionPath = "") :
    validate env settings item =
      (.error (.exception unsavedSessionMsg), item.properties,
        [⟨.error, unsavedSessionMsg, .saveAsAction⟩]) := by
  simp only [validate, h]
  rfl

/-- Witness for C3 at a concrete unsaved session. -/
theorem validate_empty_path_raises_witness :
    validate ⟨"", id, fun _ => false, fun _ => none, fun _ _ => none⟩
        ⟨true, none⟩ ⟨⟨⟨"Shot", 1⟩, true⟩, ⟨none, none, none, none⟩⟩ =
      (.error (.exception unsavedSessionMsg), ⟨none, none, none, none⟩,
        [⟨.error, unsavedSessionMsg, .saveAsAction⟩]) :=
  validate_empty_path_raises _ _ _ rfl

/-- C5: for every context whose lower-cased entity type has no
`CONTEXT_TEMPLATE` entry, `_get_templates_from_context` is non-fatal: it
returns normally with the item properties unchanged (no template set),
logging the unsupported type at debug level. -/
theorem gtc_unsupported_type_nonfatal (env : Env) (item : Item)
    (h : contextTemplateLookup (pyLower item.context.entity.etype) = none) :
    get_templates_from_context env item =
      .ok (item.properties,
        [⟨.info, determiningTemplateMsg, .noExtra⟩,
         ⟨.debug, unsupportedContextMsg item.context.entity.etype, .noExtra⟩]) := by
  simp only [get_templates_from_context, h]
  rfl

/-- Witness for C5 at a `Shot` context, which is not in `CONTEXT_TEMPLATE`. -/
theorem gtc_unsupported_type_nonfatal_witness :
    get_templates_from_context scenEnvB scenItem =
      .ok (scenItem.properties,
        [⟨.info, determiningTemplateMsg, .noExtra⟩,
         ⟨.debug, unsupportedContextMsg "Shot", .noExtra⟩]) :=
  gtc_unsupported_type_nonfatal scenEnvB scenItem (by decide)

/-- C2 (code bug): for a `Routine` entity whose fetched `sg_subsession` flag
is truthy, `_get_templates_from_context` does not select the `_subsession`
template pair — line 442 indexes `CONTEXT_TEMPLATE` with the entity type as
echoed by the tracking system (`"Routine" + "_subsession"`), not lowercased,
so the lookup raises `KeyError("Routine_subsession")`.  With a falsy flag
the plain pair is selected as the claim states. -/
theorem routine_subsession_selection_key_error :
    get_templates_from_context routineSubEnv routineItem =
      .error (.keyError "Routine_subsession") ∧
    get_templates_from_context routinePlainEnv routineItem =
      .ok (⟨some ⟨"mobu_routine_work", fun _ => true⟩,
            some ⟨"mobu_routine_publish", fun _ => true⟩, none, none⟩,
           [⟨.info, determiningTemplateMsg, .noExtra⟩]) :=
  ⟨rfl, rfl⟩

/-- C7: the render plugin's `publish` raises the missing-publish-record
error exactly when the parent item carries no `sg_publish_data`; with a
record present it never raises (and in the error case nothing is returned,
so no render job is submitted). -/
theorem render_publish_requires_publish_record :
    (∀ (cams : List (String × Nat)) (takeName : String),
        RenderUploadTakeVersion.publish none cams takeName =
          .error RenderUploadTakeVersion.missingPublishDataMsg) ∧
    (∀ (pid : Nat) (cams : List (String × Nat)) (takeName msg : String),
        RenderUploadTakeVersion.publish (some pid) cams takeName ≠ .error msg) := by
  constructor
  · intro cams takeName; rfl
  · intro pid cams takeName msg h
    simp only [RenderUploadTakeVersion.publish] at h
    split at h <;> exact Except.noConfusion h

/-- C8: the render plugin's `validate` returns `true` iff the take name
matches the identifier pattern, at least one camera is selected, and every
selected camera's name matches the pattern; concretely, selected cameras
`CameraA` and `Cam B` fail (space in `Cam B`) while `CameraA` alone
passes. -/
theorem render_validate_identifier_rule :
    (∀ (cams : List (String × Nat)) (takeName : String),
        RenderUploadTakeVersion.validate cams takeName = true ↔
          (RenderUploadTakeVersion.identRegexMatch takeName = true ∧
           (∃ p ∈ cams, p.2 ≠ 0) ∧
           ∀ p ∈ cams, p.2 ≠ 0 → RenderUploadTakeVersion.identRegexMatch p.1 = true)) ∧
    RenderUploadTakeVersion.validate [("CameraA", 1), ("Cam B", 1)] "shot_010" = false ∧
    RenderUploadTakeVersion.validate [("CameraA", 1)] "shot_010" = true := by
  refine ⟨fun cams takeName => ?_, by decide, by decide⟩
  simp only [RenderUploadTakeVersion.validate]
  by_cases h1 : RenderUploadTakeVersion.identRegexMatch takeName = true <;>
    by_cases h2 : (cams.any fun p => p.2 != 0) = true <;>
      by_cases h3 : (cams.any fun p =>
          p.2 != 0 && !RenderUploadTakeVersion.identRegexMatch p.1) = true <;>
    simp only [Bool.not_eq_true] at h1 h2 h3 <;>
    simp_all [List.any_eq_true, List.any_eq_false]

/-- C1: end-to-end scenario B — session saved as `shot010.v001.fbx`, no next
version on disk, Force Template off, no templates configured: `validate`
delegates to the base validation having emitted only an info log (no project
root) and the work-template debug log — no conformance check, no warnings or
errors; `publish` saves to the unchanged path; `finalize` saves to
`shot010.v002.fbx`.  And in general, with the lenient `force_template=false`
policy a work-template mismatch is logged as a warning, never as an error,
and does not make `validate` return `False`. -/
theorem scenario_b_lenient_force_template :
    ((validate scenEnvB scenSettings scenItem).1 = .baseDelegated ∧
     (validate scenEnvB scenSettings scenItem).2.2 =
       [⟨.info, noProjectMsg, .saveAsAction⟩,
        ⟨.debug, noWorkTemplateDebugMsg, .noExtra⟩] ∧
     (publish scenEnvB
       ⟨scenItem.context, (validate scenEnvB scenSettings scenItem).2.1⟩).1 =
       "shot010.v001.fbx" ∧
     finalize ⟨scenItem.context,
       (publish scenEnvB
         ⟨scenItem.context, (validate scenEnvB scenSettings scenItem).2.1⟩).2⟩ =
       some "shot010.v002.fbx") ∧
    (∀ (env : Env) (s : Settings) (item : Item) (wt : Template),
       s.forceTemplate = false →
       item.properties.work_template = some wt →
       wt.validate (env.normalize env.sessionPath) = false →
       env.sessionPath ≠ "" →
       (⟨.warning, templateMismatchMsg, .saveAsAction⟩ ∈ (validate env s item).2.2 ∧
        (∀ e ∈ (validate env s item).2.2,
           ¬(e.level = .error ∧ e.msg = templateMismatchMsg)) ∧
        (validate env s item).1 ≠ .returnedFalse)) := by
  refine ⟨⟨rfl, rfl, rfl, rfl⟩, ?_⟩
  intro env s item wt hforce hwt hmm hpath
  have hpathb : (env.sessionPath == "") = false := by
    simp [hpath]
  simp only [validate, hpathb, hforce, Bool.false_and, Bool.false_eq_true,
    if_false, hwt, hmm, Bool.not_false, if_true]
  cases hnv : next_version_info (env.normalize env.sessionPath) with
  | none =>
    cases hgt : getTemplateOpt env s.publishTemplateName with
    | none =>
      simp [hgt]
      rintro e (⟨-, rfl⟩ | rfl) h <;> simp at h
    | some pt =>
      simp [hgt]
      rintro e (⟨-, rfl⟩ | rfl) h <;> simp at h
  | some pv =>
    obtain ⟨p, v⟩ := pv
    by_cases hex : env.fileExists p = true
    · simp only [hex, if_true]
      cases hcs : collisionScan env versionSearchBound p v with
      | error e2 =>
        simp
        rintro e (⟨-, rfl⟩ | rfl) h <;> simp at h
      | ok fpv =>
        obtain ⟨fp, fv⟩ := fpv
        simp
        rintro e (⟨-, rfl⟩ | rfl | rfl) h <;>
          simp_all [collisionMsg, templateMismatchMsg]
    · have hex' : env.fileExists p = false := by simpa using hex
      simp only [hex', Bool.false_eq_true, if_false]
      cases hgt : getTemplateOpt env s.publishTemplateName with
      | none =>
        simp [hgt]
        rintro e (⟨-, rfl⟩ | rfl) h <;> simp at h
      | some pt =>
        simp [hgt]
        rintro e (⟨-, rfl⟩ | rfl) h <;> simp at h

/-- Helper: `_get_templates_from_context` never raises a plain `Exception`
(its failure modes are a `TypeError` or a `KeyError`). -/
theorem gtc_never_plain_exception (env : Env) (it : Item) (m : String) :
    get_templates_from_context env it ≠ .error (.exception m) := by
  intro h
  simp only [get_templates_from_context] at h
  split at h
  · simp at h
  · split at h
    · simp at h
    · split at h <;> simp at h

/-- Helper: every log event emitted by a successful
`_get_templates_from_context` carries no action payload. -/
theorem gtc_ok_log_extras (env : Env) (it : Item)
    (r : ItemProperties × List LogEvent)
    (h : get_templates_from_context env it = .ok r) :
    ∀ e ∈ r.2, e.extra = .noExtra := by
  simp only [get_templates_from_context] at h
  split at h
  · simp only [Except.ok.injEq] at h
    subst h
    intro e he
    simp only [List.cons_append, List.nil_append, List.mem_cons,
      List.not_mem_nil, or_false] at he
    rcases he with rfl | rfl <;> rfl
  · split at h
    · simp at h
    · split at h
      · simp at h
      · simp only [Except.ok.injEq] at h
        subst h
        intro e he
        simp only [List.mem_singleton] at he
        subst he
        rfl

/-- Helper: a path returned by the first-unused-version loop does not exist
on disk. -/
theorem collisionScan_ok_not_on_disk (env : Env) (fuel : Nat) :
    ∀ (p0 : String) (v0 : Nat) (fp : String) (fv : Nat),
      collisionScan env fuel p0 v0 = .ok (fp, fv) → env.fileExists fp = false := by
  induction fuel with
  | zero => intro p0 v0 fp fv h; simp [collisionScan] at h
  | succ n ih =>
    intro p0 v0 fp fv h
    rw [collisionScan] at h
    by_cases he : env.fileExists p0 = true
    · rw [he] at h
      simp only [if_true] at h
      cases hn : next_version_info p0 with
      | none => rw [hn] at h; simp at h
      | some pv => rw [hn] at h; exact ih pv.1 pv.2 fp fv h
    · have he' : env.fileExists p0 = false := by simpa using he
      rw [he'] at h
      simp only [Bool.false_eq_true, if_false, Except.ok.injEq, Prod.mk.injEq] at h
      obtain ⟨rfl, -⟩ := h
      exact he'

/-- Helper: when the immediate next version path does not exist, `validate`
neither raises the version-collision error nor logs any event carrying a
save-to-version remediation action. -/
theorem validate_skips_collision_when_next_free :
    ∀ (env : Env) (s : Settings) (item : Item) (nvp : String) (v : Nat),
      next_version_info (env.normalize env.sessionPath) = some (nvp, v) →
      env.fileExists nvp = false →
      ((validate env s item).1 ≠ .error (.exception collisionMsg) ∧
       ∀ e ∈ (validate env s item).2.2, ∀ fp fv, e.extra ≠ .saveToVersion fp fv) := by
  intro env s item nvp v hnv hex
  by_cases hp : (env.sessionPath == "") = true
  · simp [validate, hp, unsavedSessionMsg, collisionMsg]
  · have hp' : (env.sessionPath == "") = false := by simpa using hp
    by_cases ht : (s.forceTemplate && !item.context.hasTask) = true
    · simp [validate, hp', ht]
    · have ht' : (s.forceTemplate && !item.context.hasTask) = false := by simpa using ht
      simp only [validate, hp', ht', Bool.false_eq_true, if_false, hnv, hex]
      cases hwt : item.properties.work_template with
      | some wt =>
        by_cases hv : wt.validate (env.normalize env.sessionPath) = true
        · simp only [hwt, hv, if_true, hnv, hex, Bool.false_eq_true, if_false]
          cases hgt : getTemplateOpt env s.publishTemplateName with
          | some pt =>
            simp [hgt]
            rintro e (⟨-, rfl⟩ | rfl) fp fv <;> simp
          | none =>
            simp only [hgt]
            by_cases hf : s.forceTemplate = true
            · simp only [hf, if_true]
              cases hg : get_templates_from_context env
                  ⟨item.context, ⟨some wt, item.properties.publish_template,
                    item.properties.path, some (dirname env.sessionPath)⟩⟩ with
              | error e2 =>
                simp [hg]
                refine ⟨?_, ?_⟩
                · intro hcontra
                  subst hcontra
                  exact gtc_never_plain_exception _ _ _ hg
                · rintro e (⟨-, rfl⟩ | rfl) fp fv <;> simp
              | ok pg =>
                obtain ⟨props2, glogs2⟩ := pg
                have hgl := gtc_ok_log_extras _ _ _ hg
                simp only [hg]
                cases hpub : props2.publish_template with
                | none =>
                  simp [hpub]
                  rintro e (⟨-, rfl⟩ | rfl | he | rfl) fp fv <;>
                    first
                      | simp
                      | (rw [hgl e he]; simp)
                | some pt2 =>
                  simp [hpub]
                  rintro e (⟨-, rfl⟩ | rfl | he) fp fv <;>
                    first
                      | simp
                      | (rw [hgl e he]; simp)
            · have hf' : s.forceTemplate = false := by simpa using hf
              simp [hf']
              rintro e (⟨-, rfl⟩ | rfl) fp fv <;> simp
        · have hv' : wt.validate (env.normalize env.sessionPath) = false := by
            simpa using hv
          simp only [hwt, hv', Bool.false_eq_true, if_false]
          by_cases hf : s.forceTemplate = true
          · simp [hf]
            rintro e (⟨-, rfl⟩ | rfl) fp fv <;> simp
          · have hf' : s.forceTemplate = false := by simpa using hf
            simp only [hf', Bool.not_false, if_true, hnv, hex, Bool.false_eq_true,
              if_false]
            cases hgt : getTemplateOpt env s.publishTemplateName with
            | some pt =>
              simp [hgt]
              rintro e (⟨-, rfl⟩ | rfl) fp fv <;> simp
            | none =>
              simp [hgt, hf']
              rintro e (⟨-, rfl⟩ | rfl) fp fv <;> simp
      | none =>
        by_cases hf : s.forceTemplate = true
        · simp only [hwt, hf, if_true]
          cases hg : get_templates_from_context env
              ⟨item.context, ⟨none, item.properties.publish_template,
                item.properties.path, some (dirname env.sessionPath)⟩⟩ with
          | error e2 =>
            simp [hg]
            intro hcontra
            subst hcontra
            exact gtc_never_plain_exception _ _ _ hg
          | ok pg =>
            obtain ⟨props1, glogs⟩ := pg
            have hgl := gtc_ok_log_extras _ _ _ hg
            simp only [hg]
            cases hw1 : props1.work_template with
            | none =>
              simp [hw1]
              rintro e (⟨-, rfl⟩ | he | rfl) fp fv <;>
                first
                  | simp
                  | (rw [hgl e he]; simp)
            | some wt2 =>
              by_cases hv2 : wt2.validate (env.normalize env.sessionPath) = true
              · simp only [hw1, hv2, if_true, hnv, hex, Bool.false_eq_true, if_false]
                cases hgt : getTemplateOpt env s.publishTemplateName with
                | some pt =>
                  simp [hgt]
                  rintro e (⟨-, rfl⟩ | he | rfl) fp fv <;>
                    first
                      | simp
                      | (rw [hgl e he]; simp)
                | none =>
                  simp only [hgt, hf, if_true]
                  cases hg2 : get_templates_from_context env
                      ⟨item.context, props1⟩ with
                  | error e3 =>
                    simp [hg2]
                    refine ⟨?_, ?_⟩
                    · intro hcontra
                      subst hcontra
                      exact gtc_never_plain_exception _ _ _ hg2
                    · rintro e (⟨-, rfl⟩ | he | rfl) fp fv <;>
                        first
                          | simp
                          | (rw [hgl e he]; simp)
                  | ok pg2 =>
                    obtain ⟨props2, glogs2⟩ := pg2
                    have hgl2 := gtc_ok_log_extras _ _ _ hg2
                    simp only [hg2]
                    cases hpub : props2.publish_template with
                    | none =>
                      simp [hpub]
                      rintro e (⟨-, rfl⟩ | he | rfl | he2 | rfl) fp fv <;>
                        first
                          | simp
                          | (rw [hgl e he]; simp)
                          | (rw [hgl2 e he2]; simp)
                    | some pt2 =>
                      simp [hpub]
                      rintro e (⟨-, rfl⟩ | he | rfl | he2) fp fv <;>
                        first
                          | simp
                          | (rw [hgl e he]; simp)
                          | (rw [hgl2 e he2]; simp)
              · have hv2' : wt2.validate (env.normalize env.sessionPath) = false := by
                  simpa using hv2
                simp [hw1, hv2', hf]
                rintro e (⟨-, rfl⟩ | he | rfl) fp fv <;>
                  first
                    | simp
                    | (rw [hgl e he]; simp)
        · have hf' : s.forceTemplate = false := by simpa using hf
          simp only [hwt, hf', Bool.false_eq_true, if_false, hnv, hex]
          cases hgt : getTemplateOpt env s.publishTemplateName with
          | some pt =>
            simp [hgt]
            rintro e (⟨-, rfl⟩ | rfl) fp fv <;> simp
          | none =>
            simp [hgt, hf']
            rintro e (⟨-, rfl⟩ | rfl) fp fv <;> simp

/-- C4: end-to-end scenario C — with `shot010.v001.fbx` current and
`shot010.v002.fbx` on disk but `shot010.v003.fbx` free, `validate` raises
the version-collision error and the error log's remediation action
references `shot010.v003.fbx` (version 3), the first unoccupied version
found by repeatedly advancing; any path the search returns is indeed not on
disk; and when the immediate next version path does not exist, no
version-collision error is raised or logged. -/
theorem version_collision_probe :
    ((validate scenEnvC scenSettings scenItem).1 =
        .error (.exception collisionMsg) ∧
     (validate scenEnvC scenSettings scenItem).2.2 =
       [⟨.info, noProjectMsg, .saveAsAction⟩,
        ⟨.debug, noWorkTemplateDebugMsg, .noExtra⟩,
        ⟨.error, collisionMsg, .saveToVersion "shot010.v003.fbx" 3⟩]) ∧
    (∀ (env : Env) (fuel : Nat) (p0 : String) (v0 : Nat) (fp : String) (fv : Nat),
       collisionScan env fuel p0 v0 = .ok (fp, fv) →
       env.fileExists fp = false) ∧
    (∀ (env : Env) (s : Settings) (item : Item) (nvp : String) (v : Nat),
       next_version_info (env.normalize env.sessionPath) = some (nvp, v) →
       env.fileExists nvp = false →
       ((validate env s item).1 ≠ .error (.exception collisionMsg) ∧
        ∀ e ∈ (validate env s item).2.2, ∀ fp fv,
          e.extra ≠ .saveToVersion fp fv)) :=
  ⟨⟨rfl, rfl⟩, fun env fuel => collisionScan_ok_not_on_disk env fuel,
    validate_skips_collision_when_next_free⟩

/-- Helper: a successful `_get_templates_from_context` never changes an
already-set `work_template` property (the line 444 guard). -/
theorem gtc_keeps_work_template (env : Env) (it : Item) (wt : Template)
    (hwt : it.properties.work_template = some wt) :
    ∀ r, get_templates_from_context env it = .ok r →
      r.1.work_template = some wt := by
  intro r h
  simp only [get_templates_from_context] at h
  split at h
  · simp only [Except.ok.injEq] at h; subst h; exact hwt
  · split at h
    · simp at h
    · split at h
      · simp at h
      · simp only [Except.ok.injEq] at h
        subst h
        simp only [hwt, Option.isNone_some, Bool.false_eq_true, if_false]
        split <;> simp [hwt]

/-- Helper: a successful `_get_templates_from_context` never changes an
already-set `publish_template` property (the line 447 guard). -/
theorem gtc_keeps_publish_template (env : Env) (it : Item) (pt : Template)
    (hpt : it.properties.publish_template = some pt) :
    ∀ r, get_templates_from_context env it = .ok r →
      r.1.publish_template = some pt := by
  intro r h
  simp only [get_templates_from_context] at h
  split at h
  · simp only [Except.ok.injEq] at h; subst h; exact hpt
  · split at h
    · simp at h
    · split at h
      · simp at h
      · simp only [Except.ok.injEq] at h
        subst h
        split <;> simp [hpt]

/-- Helper: `validate` never changes an already-set `work_template`
property. -/
theorem validate_keeps_work_template :
    ∀ (env : Env) (s : Settings) (item : Item) (wt : Template),
      item.properties.work_template = some wt →
      (validate env s item).2.1.work_template = some wt := by
  intro env s item wt hwt
  by_cases hp : (env.sessionPath == "") = true
  · simp [validate, hp, hwt]
  · have hp' : (env.sessionPath == "") = false := by simpa using hp
    by_cases ht : (s.forceTemplate && !item.context.hasTask) = true
    · simp [validate, hp', ht, hwt]
    · have ht' : (s.forceTemplate && !item.context.hasTask) = false := by simpa using ht
      simp only [validate, hp', ht', Bool.false_eq_true, if_false, hwt]
      by_cases hv : wt.validate (env.normalize env.sessionPath) = true
      · simp only [hv, if_true]
        cases hnv : next_version_info (env.normalize env.sessionPath) with
        | none =>
          cases hgt : getTemplateOpt env s.publishTemplateName with
          | some pt => simp [hgt]
          | none =>
            simp only [hgt]
            by_cases hf : s.forceTemplate = true
            · simp only [hf, if_true]
              cases hg : get_templates_from_context env
                  ⟨item.context, ⟨some wt, item.properties.publish_template,
                    item.properties.path, some (dirname env.sessionPath)⟩⟩ with
              | error e2 => simp [hg]
              | ok pg =>
                have hkeep := gtc_keeps_work_template env
                  ⟨item.context, ⟨some wt, item.properties.publish_template,
                    item.properties.path, some (dirname env.sessionPath)⟩⟩ wt rfl pg hg
                simp only [hg]
                cases hpub : pg.1.publish_template with
                | none => simp [hpub, hkeep]
                | some pt2 => simp [hpub, hkeep]
            · have hf' : s.forceTemplate = false := by simpa using hf
              simp [hf']
        | some pv =>
          by_cases hx : env.fileExists pv.1 = true
          · simp only [hnv, hx, if_true]
            cases hcs : collisionScan env versionSearchBound pv.1 pv.2 with
            | error e2 => simp [hcs]
            | ok fpv => simp [hcs]
          · have hx' : env.fileExists pv.1 = false := by simpa using hx
            simp only [hnv, hx', Bool.false_eq_true, if_false]
            cases hgt : getTemplateOpt env s.publishTemplateName with
            | some pt => simp [hgt]
            | none =>
              simp only [hgt]
              by_cases hf : s.forceTemplate = true
              · simp only [hf, if_true]
                cases hg : get_templates_from_context env
                    ⟨item.context, ⟨some wt, item.properties.publish_template,
                      item.properties.path, some (dirname env.sessionPath)⟩⟩ with
                | error e2 => simp [hg]
                | ok pg =>
                  have hkeep := gtc_keeps_work_template env
                    ⟨item.context, ⟨some wt, item.properties.publish_template,
                      item.properties.path, some (dirname env.sessionPath)⟩⟩ wt rfl pg hg
                  simp only [hg]
                  cases hpub : pg.1.publish_template with
                  | none => simp [hpub, hkeep]
                  | some pt2 => simp [hpub, hkeep]
              · have hf' : s.forceTemplate = false := by simpa using hf
                simp [hf']
      · have hv' : wt.validate (env.normalize env.sessionPath) = false := by
          simpa using hv
        by_cases hf : s.forceTemplate = true
        · simp [hv', hf]
        · have hf' : s.forceTemplate = false := by simpa using hf
          simp only [hv', hf', Bool.false_eq_true, if_false, Bool.not_false, if_true]
          cases hnv : next_version_info (env.normalize env.sessionPath) with
          | none =>
            cases hgt : getTemplateOpt env s.publishTemplateName with
            | some pt => simp [hgt]
            | none => simp [hgt, hf']
          | some pv =>
            by_cases hx : env.fileExists pv.1 = true
            · simp only [hnv, hx, if_true]
              cases hcs : collisionScan env versionSearchBound pv.1 pv.2 with
              | error e2 => simp [hcs]
              | ok fpv => simp [hcs]
            · have hx' : env.fileExists pv.1 = false := by simpa using hx
              simp only [hnv, hx', Bool.false_eq_true, if_false]
              cases hgt : getTemplateOpt env s.publishTemplateName with
              | some pt => simp [hgt]
              | none => simp [hgt, hf']

/-- Helper: with Force Template off, `validate` never consults the
context-based template selection (no log carries its entry message). -/
theorem validate_lenient_no_context_selection :
    ∀ (env : Env) (s : Settings) (item : Item),
      s.forceTemplate = false →
      ∀ e ∈ (validate env s item).2.2, e.msg ≠ determiningTemplateMsg := by
  intro env s item hf
  by_cases hp : (env.sessionPath == "") = true
  · simp [validate, hp, unsavedSessionMsg, determiningTemplateMsg]
  · have hp' : (env.sessionPath == "") = false := by simpa using hp
    simp only [validate, hp', hf, Bool.false_and, Bool.false_eq_true, if_false]
    cases hwt : item.properties.work_template with
    | some wt =>
      by_cases hv : wt.validate (env.normalize env.sessionPath) = true
      · simp only [hv, if_true]
        cases hnv : next_version_info (env.normalize env.sessionPath) with
        | none =>
          cases hgt : getTemplateOpt env s.publishTemplateName with
          | some pt =>
            simp [hgt]
            rintro e (⟨-, rfl⟩ | rfl) <;>
              simp [noProjectMsg, workMatchesDebugMsg, determiningTemplateMsg]
          | none =>
            simp [hgt, hf]
            rintro e (⟨-, rfl⟩ | rfl) <;>
              simp [noProjectMsg, workMatchesDebugMsg, determiningTemplateMsg]
        | some pv =>
          by_cases hx : env.fileExists pv.1 = true
          · simp only [hnv, hx, if_true]
            cases hcs : collisionScan env versionSearchBound pv.1 pv.2 with
            | error e2 =>
              simp [hcs]
              rintro e (⟨-, rfl⟩ | rfl) <;>
                simp [noProjectMsg, workMatchesDebugMsg, determiningTemplateMsg]
            | ok fpv =>
              simp [hcs]
              rintro e (⟨-, rfl⟩ | rfl | rfl) <;>
                simp [noProjectMsg, workMatchesDebugMsg, collisionMsg,
                  determiningTemplateMsg]
          · have hx' : env.fileExists pv.1 = false := by simpa using hx
            simp only [hnv, hx', Bool.false_eq_true, if_false]
            cases hgt : getTemplateOpt env s.publishTemplateName with
            | some pt =>
              simp [hgt]
              rintro e (⟨-, rfl⟩ | rfl) <;>
                simp [noProjectMsg, workMatchesDebugMsg, determiningTemplateMsg]
            | none =>
              simp [hgt, hf]
              rintro e (⟨-, rfl⟩ | rfl) <;>
                simp [noProjectMsg, workMatchesDebugMsg, determiningTemplateMsg]
      · have hv' : wt.validate (env.normalize env.sessionPath) = false := by
          simpa using hv
        simp only [hv', Bool.false_eq_true, if_false, hf, Bool.not_false, if_true]
        cases hnv : next_version_info (env.normalize env.sessionPath) with
        | none =>
          cases hgt : getTemplateOpt env s.publishTemplateName with
          | some pt =>
            simp [hgt]
            rintro e (⟨-, rfl⟩ | rfl) <;>
              simp [noProjectMsg, templateMismatchMsg, determiningTemplateMsg]
          | none =>
            simp [hgt, hf]
            rintro e (⟨-, rfl⟩ | rfl) <;>
              simp [noProjectMsg, templateMismatchMsg, determiningTemplateMsg]
        | some pv =>
          by_cases hx : env.fileExists pv.1 = true
          · simp only [hnv, hx, if_true]
            cases hcs : collisionScan env versionSearchBound pv.1 pv.2 with
            | error e2 =>
              simp [hcs]
              rintro e (⟨-, rfl⟩ | rfl) <;>
                simp [noProjectMsg, templateMismatchMsg, determiningTemplateMsg]
            | ok fpv =>
              simp [hcs]
              rintro e (⟨-, rfl⟩ | rfl | rfl) <;>
                simp [noProjectMsg, templateMismatchMsg, collisionMsg,
                  determiningTemplateMsg]
          · have hx' : env.fileExists pv.1 = false := by simpa using hx
            simp only [hnv, hx', Bool.false_eq_true, if_false]
            cases hgt : getTemplateOpt env s.publishTemplateName with
            | some pt =>
              simp [hgt]
              rintro e (⟨-, rfl⟩ | rfl) <;>
                simp [noProjectMsg, templateMismatchMsg, determiningTemplateMsg]
            | none =>
              simp [hgt, hf]
              rintro e (⟨-, rfl⟩ | rfl) <;>
                simp [noProjectMsg, templateMismatchMsg, determiningTemplateMsg]
    | none =>
      simp only [hf, Bool.false_eq_true, if_false]
      cases hnv : next_version_info (env.normalize env.sessionPath) with
      | none =>
        cases hgt : getTemplateOpt env s.publishTemplateName with
        | some pt =>
          simp [hgt]
          rintro e (⟨-, rfl⟩ | rfl) <;>
            simp [noProjectMsg, noWorkTemplateDebugMsg, determiningTemplateMsg]
        | none =>
          simp [hgt, hf]
          rintro e (⟨-, rfl⟩ | rfl) <;>
            simp [noProjectMsg, noWorkTemplateDebugMsg, determiningTemplateMsg]
      | some pv =>
        by_cases hx : env.fileExists pv.1 = true
        · simp only [hnv, hx, if_true]
          cases hcs : collisionScan env versionSearchBound pv.1 pv.2 with
          | error e2 =>
            simp [hcs]
            rintro e (⟨-, rfl⟩ | rfl) <;>
              simp [noProjectMsg, noWorkTemplateDebugMsg, determiningTemplateMsg]
          | ok fpv =>
            simp [hcs]
            rintro e (⟨-, rfl⟩ | rfl | rfl) <;>
              simp [noProjectMsg, noWorkTemplateDebugMsg, collisionMsg,
                determiningTemplateMsg]
        · have hx' : env.fileExists pv.1 = false := by simpa using hx
          simp only [hnv, hx', Bool.false_eq_true, if_false]
          cases hgt : getTemplateOpt env s.publishTemplateName with
          | some pt =>
            simp [hgt]
            rintro e (⟨-, rfl⟩ | rfl) <;>
              simp [noProjectMsg, noWorkTemplateDebugMsg, determiningTemplateMsg]
          | none =>
            simp [hgt, hf]
            rintro e (⟨-, rfl⟩ | rfl) <;>
              simp [noProjectMsg, noWorkTemplateDebugMsg, determiningTemplateMsg]

/-- Helper: with an explicitly stored work template and a resolvable Publish
Template setting, `validate` never consults the context-based template
selection. -/
theorem validate_explicit_no_context_selection :
    ∀ (env : Env) (s : Settings) (item : Item) (wt pt : Template),
      item.properties.work_template = some wt →
      getTemplateOpt env s.publishTemplateName = some pt →
      ∀ e ∈ (validate env s item).2.2, e.msg ≠ determiningTemplateMsg := by
  intro env s item wt pt hwt hgt
  by_cases hp : (env.sessionPath == "") = true
  · simp [validate, hp, unsavedSessionMsg, determiningTemplateMsg]
  · have hp' : (env.sessionPath == "") = false := by simpa using hp
    by_cases ht : (s.forceTemplate && !item.context.hasTask) = true
    · simp [validate, hp', ht, taskNeededMsg, determiningTemplateMsg]
    · have ht' : (s.forceTemplate && !item.context.hasTask) = false := by simpa using ht
      simp only [validate, hp', ht', Bool.false_eq_true, if_false, hwt]
      by_cases hv : wt.validate (env.normalize env.sessionPath) = true
      · simp only [hv, if_true]
        cases hnv : next_version_info (env.normalize env.sessionPath) with
        | none =>
          simp [hgt]
          rintro e (⟨-, rfl⟩ | rfl) <;>
            simp [noProjectMsg, workMatchesDebugMsg, determiningTemplateMsg]
        | some pv =>
          by_cases hx : env.fileExists pv.1 = true
          · simp only [hnv, hx, if_true]
            cases hcs : collisionScan env versionSearchBound pv.1 pv.2 with
            | error e2 =>
              simp [hcs]
              rintro e (⟨-, rfl⟩ | rfl) <;>
                simp [noProjectMsg, workMatchesDebugMsg, determiningTemplateMsg]
            | ok fpv =>
              simp [hcs]
              rintro e (⟨-, rfl⟩ | rfl | rfl) <;>
                simp [noProjectMsg, workMatchesDebugMsg, collisionMsg,
                  determiningTemplateMsg]
          · have hx' : env.fileExists pv.1 = false := by simpa using hx
            simp only [hnv, hx', Bool.false_eq_true, if_false]
            simp [hgt]
            rintro e (⟨-, rfl⟩ | rfl) <;>
              simp [noProjectMsg, workMatchesDebugMsg, determiningTemplateMsg]
      · have hv' : wt.validate (env.normalize env.sessionPath) = false := by
          simpa using hv
        by_cases hf : s.forceTemplate = true
        · simp [hv', hf]
          rintro e (⟨-, rfl⟩ | rfl) <;>
            simp [noProjectMsg, templateMismatchMsg, determiningTemplateMsg]
        · have hf' : s.forceTemplate = false := by simpa using hf
          simp only [hv', hf', Bool.false_eq_true, if_false, Bool.not_false, if_true]
          cases hnv : next_version_info (env.normalize env.sessionPath) with
          | none =>
            simp [hgt]
            rintro e (⟨-, rfl⟩ | rfl) <;>
              simp [noProjectMsg, templateMismatchMsg, determiningTemplateMsg]
          | some pv =>
            by_cases hx : env.fileExists pv.1 = true
            · simp only [hnv, hx, if_true]
              cases hcs : collisionScan env versionSearchBound pv.1 pv.2 with
              | error e2 =>
                simp [hcs]
                rintro e (⟨-, rfl⟩ | rfl) <;>
                  simp [noProjectMsg, templateMismatchMsg, determiningTemplateMsg]
              | ok fpv =>
                simp [hcs]
                rintro e (⟨-, rfl⟩ | rfl | rfl) <;>
                  simp [noProjectMsg, templateMismatchMsg, collisionMsg,
                    determiningTemplateMsg]
            · have hx' : env.fileExists pv.1 = false := by simpa using hx
              simp only [hnv, hx', Bool.false_eq_true, if_false]
              simp [hgt]
              rintro e (⟨-, rfl⟩ | rfl) <;>
                simp [noProjectMsg, templateMismatchMsg, determiningTemplateMsg]

/-- Helper: when the Publish Template setting resolves, a `validate` run
that reaches base delegation leaves the setting's template in the
`publish_template` property. -/
theorem validate_setting_overrides_publish_template :
    ∀ (env : Env) (s : Settings) (item : Item) (pt : Template),
      getTemplateOpt env s.publishTemplateName = some pt →
      (validate env s item).1 = .baseDelegated →
      (validate env s item).2.1.publish_template = some pt := by
  intro env s item pt hgt
  by_cases hp : (env.sessionPath == "") = true
  · simp [validate, hp]
  · have hp' : (env.sessionPath == "") = false := by simpa using hp
    by_cases ht : (s.forceTemplate && !item.context.hasTask) = true
    · simp [validate, hp', ht]
    · have ht' : (s.forceTemplate && !item.context.hasTask) = false := by simpa using ht
      simp only [validate, hp', ht', Bool.false_eq_true, if_false]
      cases hwt : item.properties.work_template with
      | some wt =>
        by_cases hv : wt.validate (env.normalize env.sessionPath) = true
        · simp only [hv, if_true]
          cases hnv : next_version_info (env.normalize env.sessionPath) with
          | none => simp [hgt]
          | some pv =>
            by_cases hx : env.fileExists pv.1 = true
            · simp only [hnv, hx, if_true]
              cases hcs : collisionScan env versionSearchBound pv.1 pv.2 with
              | error e2 => simp [hcs]
              | ok fpv => simp [hcs]
            · have hx' : env.fileExists pv.1 = false := by simpa using hx
              simp only [hnv, hx', Bool.false_eq_true, if_false]
              simp [hgt]
        · have hv' : wt.validate (env.normalize env.sessionPath) = false := by
            simpa using hv
          by_cases hf : s.forceTemplate = true
          · simp [hv', hf]
          · have hf' : s.forceTemplate = false := by simpa using hf
            simp only [hv', hf', Bool.false_eq_true, if_false, Bool.not_false,
              if_true]
            cases hnv : next_version_info (env.normalize env.sessionPath) with
            | none => simp [hgt]
            | some pv =>
              by_cases hx : env.fileExists pv.1 = true
              · simp only [hnv, hx, if_true]
                cases hcs : collisionScan env versionSearchBound pv.1 pv.2 with
                | error e2 => simp [hcs]
                | ok fpv => simp [hcs]
              · have hx' : env.fileExists pv.1 = false := by simpa using hx
                simp only [hnv, hx', Bool.false_eq_true, if_false]
                simp [hgt]
      | none =>
        by_cases hf : s.forceTemplate = true
        · simp only [hf, if_true]
          cases hg : get_templates_from_context env
              ⟨item.context, ⟨none, item.properties.publish_template,
                item.properties.path, some (dirname env.sessionPath)⟩⟩ with
          | error e2 => simp [hg]
          | ok pg =>
            simp only [hg]
            cases hw1 : pg.1.work_template with
            | none => simp [hw1]
            | some wt2 =>
              by_cases hv2 : wt2.validate (env.normalize env.sessionPath) = true
              · simp only [hw1, hv2, if_true]
                cases hnv : next_version_info (env.normalize env.sessionPath) with
                | none => simp [hgt]
                | some pv =>
                  by_cases hx : env.fileExists pv.1 = true
                  · simp only [hnv, hx, if_true]
                    cases hcs : collisionScan env versionSearchBound pv.1 pv.2 with
                    | error e2 => simp [hcs]
                    | ok fpv => simp [hcs]
                  · have hx' : env.fileExists pv.1 = false := by simpa using hx
                    simp only [hnv, hx', Bool.false_eq_true, if_false]
                    simp [hgt]
              · have hv2' : wt2.validate (env.normalize env.sessionPath) = false := by
                  simpa using hv2
                simp [hw1, hv2', hf]
        · have hf' : s.forceTemplate = false := by simpa using hf
          simp only [hf', Bool.false_eq_true, if_false]
          cases hnv : next_version_info (env.normalize env.sessionPath) with
          | none => simp [hgt]
          | some pv =>
            by_cases hx : env.fileExists pv.1 = true
            · simp only [hnv, hx, if_true]
              cases hcs : collisionScan env versionSearchBound pv.1 pv.2 with
              | error e2 => simp [hcs]
              | ok fpv => simp [hcs]
            · have hx' : env.fileExists pv.1 = false := by simpa using hx
              simp only [hnv, hx', Bool.false_eq_true, if_false]
              simp [hgt]

/-- C6 counterexample: an item whose `publish_template` property is already
set (to a template named `old_tpl`) has that property overwritten by
`validate` when the Publish Template setting resolves to `new_tpl` —
so the claim that an already-set publish_template is never changed by
validate's template resolution is false. -/
theorem preset_publish_template_overwritten :
    (validate presetEnv presetSettings presetItem).2.1.publish_template.map
        Template.name = some "new_tpl" ∧
    presetItem.properties.publish_template.map Template.name =
      some "old_tpl" ∧
    (validate presetEnv presetSettings presetItem).1 = .baseDelegated :=
  ⟨rfl, rfl, rfl⟩

/-- C6 (amended): context-based template selection runs only when the
explicit settings are absent and Force Template is on, and
`_get_templates_from_context` never overwrites an already-set template
property; `validate` never changes an already-set `work_template`, but it
does overwrite the `publish_template` property with the explicitly
configured Publish Template setting whenever that setting resolves —
explicit settings take precedence over a previously stored property. -/
theorem template_precedence_amended :
    (∀ (env : Env) (it : Item) (wt : Template),
       it.properties.work_template = some wt →
       ∀ r, get_templates_from_context env it = .ok r →
         r.1.work_template = some wt) ∧
    (∀ (env : Env) (it : Item) (pt : Template),
       it.properties.publish_template = some pt →
       ∀ r, get_templates_from_context env it = .ok r →
         r.1.publish_template = some pt) ∧
    (∀ (env : Env) (s : Settings) (item : Item) (wt : Template),
       item.properties.work_template = some wt →
       (validate env s item).2.1.work_template = some wt) ∧
    (∀ (env : Env) (s : Settings) (item : Item),
       s.forceTemplate = false →
       ∀ e ∈ (validate env s item).2.2, e.msg ≠ determiningTemplateMsg) ∧
    (∀ (env : Env) (s : Settings) (item : Item) (wt pt : Template),
       item.properties.work_template = some wt →
       getTemplateOpt env s.publishTemplateName = some pt →
       ∀ e ∈ (validate env s item).2.2, e.msg ≠ determiningTemplateMsg) ∧
    (∀ (env : Env) (s : Settings) (item : Item) (pt : Template),
       getTemplateOpt env s.publishTemplateName = some pt →
       (validate env s item).1 = .baseDelegated →
       (validate env s item).2.1.publish_template = some pt) :=
  ⟨gtc_keeps_work_template, gtc_keeps_publish_template,
    validate_keeps_work_template, validate_lenient_no_context_selection,
    validate_explicit_no_context_selection,
    validate_setting_overrides_publish_template⟩

open MotionBuilderSessionCollector in
/-- Helper: closed form of the collector's camera-gathering fold — the first
component collects the non-system cameras in order, the second remembers the
last `Producer Perspective` system camera (falling back to the
accumulator). -/
theorem gatherCams_foldl (l : List Camera) (a1 : List Camera) (a2 : Option Camera) :
    l.foldl gatherStep (a1, a2) =
      (a1 ++ l.filter (fun c => !c.systemCamera),
       (l.reverse.find?
         (fun c => c.systemCamera && c.name == "Producer Perspective")).or a2) := by
  induction l generalizing a1 a2 with
  | nil => simp
  | cons c l ih =>
    rw [List.foldl_cons]
    by_cases hs : c.systemCamera = true
    · by_cases hn : (c.name == "Producer Perspective") = true
      · have hstep : gatherStep (a1, a2) c = (a1, some c) := by
          simp [gatherStep, hs, hn]
        rw [hstep, ih]
        have hp : (fun c : Camera =>
            c.systemCamera && c.name == "Producer Perspective") c = true := by
          simp [hs, hn]
        have hne : c.name = "Producer Perspective" := by simpa using hn
        simp [List.filter_cons, hs, List.find?_append, hp, hne, Option.or_assoc,
          Option.or_some]
      · have hn' : (c.name == "Producer Perspective") = false := by
          simpa using hn
        have hstep : gatherStep (a1, a2) c = (a1, a2) := by
          simp [gatherStep, hs, hn']
        rw [hstep, ih]
        have hp : (fun c : Camera =>
            c.systemCamera && c.name == "Producer Perspective") c = false := by
          simp [hs, hn']
        have hne : ¬ c.name = "Producer Perspective" := by simpa using hn'
        simp [List.filter_cons, hs, List.find?_append, hp, hne, Option.or_none]
    · have hs' : c.systemCamera = false := by simpa using hs
      have hstep : gatherStep (a1, a2) c = (a1 ++ [c], a2) := by
        simp [gatherStep, hs']
      rw [hstep, ih]
      have hp : (fun c : Camera =>
          c.systemCamera && c.name == "Producer Perspective") c = false := by
        simp [hs']
      simp [List.filter_cons, hs', List.find?_append, hp]

open MotionBuilderSessionCollector in
/-- Helper: closed form of the `cam_list` property stored on take items. -/
theorem take_cam_list_eq (cameras : List Camera) :
    take_cam_list cameras =
      if cameras.filter (fun c => !c.systemCamera) ≠ [] then
        (cameras.filter (fun c => !c.systemCamera)).map some
      else [lastProducerPerspective cameras] := by
  simp only [take_cam_list, gatherCams, gatherCams_foldl, List.nil_append,
    Option.or_none, lastProducerPerspective]
  by_cases h : cameras.filter (fun c => !c.systemCamera) = []
  · simp [h]
  · simp [h, List.isEmpty_iff]

open MotionBuilderSessionCollector in
/-- C9: every take item's `cam_list` property is non-empty — the scene's
non-system cameras when any exist, otherwise a one-element list holding the
last `Producer Perspective` system camera (`none` exactly when no such
camera exists) — and the render plugin's `accept` returns true exactly when
the property is present and non-empty, so a collector-produced take is
always accepted. -/
theorem collector_cam_list_always_accepted :
    (∀ cameras : List Camera, take_cam_list cameras ≠ []) ∧
    (∀ cameras : List Camera,
       (cameras.filter (fun c => !c.systemCamera) ≠ [] →
          take_cam_list cameras =
            (cameras.filter (fun c => !c.systemCamera)).map some) ∧
       (cameras.filter (fun c => !c.systemCamera) = [] →
          take_cam_list cameras = [lastProducerPerspective cameras]) ∧
       (lastProducerPerspective cameras = none ↔
          ∀ c ∈ cameras,
            ¬(c.systemCamera = true ∧ c.name = "Producer Perspective")) ∧
       (∀ c, lastProducerPerspective cameras = some c →
          c ∈ cameras ∧ c.systemCamera = true ∧
            c.name = "Producer Perspective")) ∧
    (∀ camList : Option (List (Option Camera)),
       RenderUploadTakeVersion.accept camList = true ↔
         ∃ l, camList = some l ∧ l ≠ []) ∧
    (∀ cameras : List Camera,
       RenderUploadTakeVersion.accept (some (take_cam_list cameras)) = true) := by
  have hstruct : ∀ cameras : List Camera,
      (cameras.filter (fun c => !c.systemCamera) ≠ [] →
        take_cam_list cameras =
          (cameras.filter (fun c => !c.systemCamera)).map some) ∧
      (cameras.filter (fun c => !c.systemCamera) = [] →
        take_cam_list cameras = [lastProducerPerspective cameras]) := by
    intro cameras
    rw [take_cam_list_eq]
    constructor
    · intro h; simp [h]
    · intro h; simp [h]
  have hne : ∀ cameras : List Camera, take_cam_list cameras ≠ [] := by
    intro cameras
    rw [take_cam_list_eq]
    by_cases h : cameras.filter (fun c => !c.systemCamera) = []
    · simp [h]
    · simp [h]
  have haccept : ∀ camList : Option (List (Option Camera)),
      RenderUploadTakeVersion.accept camList = true ↔
        ∃ l, camList = some l ∧ l ≠ [] := by
    intro camList
    cases camList with
    | none => simp [RenderUploadTakeVersion.accept]
    | some l => simp [RenderUploadTakeVersion.accept, List.isEmpty_iff]
  refine ⟨hne, ?_, haccept, ?_⟩
  · intro cameras
    refine ⟨(hstruct cameras).1, (hstruct cameras).2, ?_, ?_⟩
    · simp only [lastProducerPerspective, List.find?_eq_none, List.mem_reverse]
      constructor
      · intro h c hc
        have := h c hc
        simp only [Bool.and_eq_true, beq_iff_eq] at this
        tauto
      · intro h c hc
        have := h c hc
        simp only [Bool.and_eq_true, beq_iff_eq]
        tauto
    · intro c h
      simp only [lastProducerPerspective] at h
      have hmem := List.mem_of_find?_eq_some h
      have hpred := List.find?_some h
      simp only [Bool.and_eq_true, beq_iff_eq] at hpred
      rw [List.mem_reverse] at hmem
      exact ⟨hmem, hpred.1, hpred.2⟩
  · intro cameras
    rw [haccept]
    exact ⟨take_cam_list cameras, rfl, hne cameras⟩

open RenderUploadTakeVersion in
/-- C10: the multi-edit reconciliation for the cams setting — `false` when
no task's cams dict has the camera; in the mixed case `true` iff some
present value is truthy; when all tasks have it, `true` iff some value
differs from the first task's; and overall `false` exactly when all tasks
effectively agree (absent entries counting as 0). -/
theorem cams_multi_edit_reconciliation :
    ∀ (tasks : List (List (String × Nat))) (cam : String), tasks ≠ [] →
      ((∀ s ∈ tasks, dictLookup s cam = none) →
         cams_settings_requires_multi_edit_mode tasks cam = false) ∧
      ((∃ s ∈ tasks, (dictLookup s cam).isSome) →
       (∃ s ∈ tasks, dictLookup s cam = none) →
       (cams_settings_requires_multi_edit_mode tasks cam = true ↔
         ∃ s ∈ tasks, ∃ v, dictLookup s cam = some v ∧ v ≠ 0)) ∧
      ((∀ s ∈ tasks, (dictLookup s cam).isSome) →
       (cams_settings_requires_multi_edit_mode tasks cam = true ↔
         ∃ s ∈ tasks, dictLookup s cam ≠ dictLookup (tasks.headD []) cam)) ∧
      (cams_settings_requires_multi_edit_mode tasks cam = false ↔
        ∀ s ∈ tasks,
          (dictLookup s cam).getD 0 = (dictLookup (tasks.headD []) cam).getD 0) := by
  intro tasks cam hne
  obtain ⟨t0, ts, rfl⟩ : ∃ t0 ts, tasks = t0 :: ts := by
    cases tasks with
    | nil => exact absurd rfl hne
    | cons t0 ts => exact ⟨t0, ts, rfl⟩
  have hA : (∀ s ∈ t0 :: ts, dictLookup s cam = none) →
      cams_settings_requires_multi_edit_mode (t0 :: ts) cam = false := by
    intro hall
    have hfil : (t0 :: ts).filter (fun s => (dictLookup s cam).isSome) = [] := by
      rw [List.filter_eq_nil_iff]
      intro s hs
      simp [hall s hs]
    simp [cams_settings_requires_multi_edit_mode, hfil]
  have hB : (∃ s ∈ t0 :: ts, (dictLookup s cam).isSome) →
      (∃ s ∈ t0 :: ts, dictLookup s cam = none) →
      (cams_settings_requires_multi_edit_mode (t0 :: ts) cam = true ↔
        ∃ s ∈ t0 :: ts, ∃ v, dictLookup s cam = some v ∧ v ≠ 0) := by
    rintro ⟨s1, hs1, hsome1⟩ ⟨s2, hs2, hnone2⟩
    have hfilne : (t0 :: ts).filter (fun s => (dictLookup s cam).isSome) ≠ [] := by
      intro h
      rw [List.filter_eq_nil_iff] at h
      exact h s1 hs1 hsome1
    have hlenne :
        ((t0 :: ts).filter (fun s => (dictLookup s cam).isSome)).length ≠
          (t0 :: ts).length := by
      intro h
      rw [List.filter_length_eq_length] at h
      have := h s2 hs2
      simp [hnone2] at this
    have hbne :
        ((t0 :: ts).length !=
          ((t0 :: ts).filter (fun s => (dictLookup s cam).isSome)).length) = true := by
      simpa using fun h => hlenne h.symm
    simp only [cams_settings_requires_multi_edit_mode, List.isEmpty_iff, hfilne,
      if_false, hbne, if_true]
    rw [List.any_eq_true]
    constructor
    · rintro ⟨s, hs, hv⟩
      rw [List.mem_filter] at hs
      obtain ⟨hmem, hsome⟩ := hs
      cases hlk : dictLookup s cam with
      | none => rw [hlk] at hsome; cases hsome
      | some v =>
        refine ⟨s, hmem, v, hlk, ?_⟩
        rw [hlk] at hv
        simpa using hv
    · rintro ⟨s, hmem, v, hlk, hv⟩
      refine ⟨s, List.mem_filter.mpr ⟨hmem, by simp [hlk]⟩, ?_⟩
      simp [hlk, hv]
  have hC : (∀ s ∈ t0 :: ts, (dictLookup s cam).isSome) →
      (cams_settings_requires_multi_edit_mode (t0 :: ts) cam = true ↔
        ∃ s ∈ t0 :: ts, dictLookup s cam ≠ dictLookup ((t0 :: ts).headD []) cam) := by
    intro hall
    have hfil : (t0 :: ts).filter (fun s => (dictLookup s cam).isSome) = t0 :: ts :=
      List.filter_eq_self.mpr hall
    simp only [cams_settings_requires_multi_edit_mode, hfil, List.isEmpty_cons,
      Bool.false_eq_true, if_false, bne_self_eq_false, List.headD_cons]
    rw [Bool.not_eq_true']
    constructor
    · intro h
      rw [List.all_eq_false] at h
      obtain ⟨s, hsmem, hsne⟩ := h
      refine ⟨s, hsmem, ?_⟩
      simp only [beq_iff_eq] at hsne
      exact fun heq => hsne heq.symm
    · rintro ⟨s, hsmem, hsne⟩
      rw [List.all_eq_false]
      refine ⟨s, hsmem, ?_⟩
      simp only [beq_iff_eq]
      exact fun heq => hsne heq.symm
  refine ⟨hA, hB, hC, ?_⟩
  by_cases hallS : ∀ s ∈ t0 :: ts, (dictLookup s cam).isSome
  · have := hC hallS
    rw [List.headD_cons] at this ⊢
    constructor
    · intro hfalse s hsmem
      have hnotrue : ¬ cams_settings_requires_multi_edit_mode (t0 :: ts) cam = true := by
        simp [hfalse]
      rw [this] at hnotrue
      push_neg at hnotrue
      rw [hnotrue s hsmem]
    · intro hgd
      by_contra htrue
      rw [Bool.not_eq_false] at htrue
      obtain ⟨s, hsmem, hsne⟩ := this.mp htrue
      apply hsne
      obtain ⟨v, hv⟩ := Option.isSome_iff_exists.mp (hallS s hsmem)
      obtain ⟨v0, hv0⟩ := Option.isSome_iff_exists.mp (hallS t0 (by simp))
      have := hgd s hsmem
      rw [hv, hv0] at this ⊢
      simpa using this
  · by_cases hallN : ∀ s ∈ t0 :: ts, dictLookup s cam = none
    · rw [hA hallN, List.headD_cons]
      simp only [true_iff]
      intro s hsmem
      rw [hallN s hsmem, hallN t0 (by simp)]
    · push_neg at hallS hallN
      obtain ⟨sA, hsAmem, hsA⟩ := hallS
      obtain ⟨sB, hsBmem, hsB⟩ := hallN
      have hsome : ∃ s ∈ t0 :: ts, (dictLookup s cam).isSome := by
        refine ⟨sB, hsBmem, ?_⟩
        cases h : dictLookup sB cam with
        | none => exact absurd h hsB
        | some v => rfl
      have hnone : ∃ s ∈ t0 :: ts, dictLookup s cam = none := by
        refine ⟨sA, hsAmem, ?_⟩
        cases h : dictLookup sA cam with
        | none => rfl
        | some v => rw [h] at hsA; simp at hsA
      have hiff := hB hsome hnone
      rw [List.headD_cons]
      constructor
      · intro hfalse s hsmem
        have hnotrue : ¬ cams_settings_requires_multi_edit_mode (t0 :: ts) cam = true := by
          simp [hfalse]
        rw [hiff] at hnotrue
        push_neg at hnotrue
        have hzero : ∀ u ∈ t0 :: ts, (dictLookup u cam).getD 0 = 0 := by
          intro u humem
          cases h : dictLookup u cam with
          | none => rfl
          | some v =>
            have := hnotrue u humem v h
            simpa using this
        rw [hzero s hsmem, hzero t0 (by simp)]
      · intro hgd
        by_contra htrue
        rw [Bool.not_eq_false] at htrue
        obtain ⟨s, hsmem, v, hlk, hv⟩ := hiff.mp htrue
        obtain ⟨s2, hs2mem, hlk2⟩ := hnone
        have h1 := hgd s hsmem
        have h2 := hgd s2 hs2mem
        rw [hlk] at h1
        rw [hlk2] at h2
        simp only [Option.getD_some, Option.getD_none] at h1 h2
        rw [← h2] at h1
        exact hv h1

/-- Witness for C10 at a concrete single-task input where the camera is
absent everywhere. -/
theorem cams_multi_edit_reconciliation_witness :
    RenderUploadTakeVersion.cams_settings_requires_multi_edit_mode
        [[("Other", 1)]] "CameraA" = false :=
  (cams_multi_edit_reconciliation [[("Other", 1)]] "CameraA" (by decide)).1
    (by decide)

end TkMobu
